import Mathlib

/-!
Verification development for the tutube caching download proxy
(source file: tutube.py).

The development contains two shallow embeddings of the core:

1. A sequential, state-passing embedding of the caching downloader
   (`lock`, `CachingDownloader.extract_info`, `CachingDownloader._download`,
   `CachingDownloader.get_videos`) and of the WSGI serving layer
   (`YoutubeDownloader.__call__` and `YoutubeDownloader.do_GET`),
   over an explicit filesystem state `FS`.  The external
   extraction/transcoding engine (youtube_dl) is out of scope per the
   specification and enters as a `Collab` parameter providing its two
   operations: metadata resolution and materialization.

2. A small interleaving semantics for two threads running the body of
   `CachingDownloader._download` for the same resolved resource, used to
   settle the concurrency claims about the per-path file lock.

Every definition is written to be executable so that concrete runs can be
evaluated with decide or rfl.
-/

set_option maxRecDepth 4000

deriving instance DecidableEq for Except

namespace Tutube

/-- Metadata record built by `CachingDownloader.extract_info` from one
youtube_dl info dict (tutube.py line 91): the namedtuple
`VideoInfo(url, provider, id, title)` at lines 53-54. -/
structure VideoInfo where
  url : String
  provider : String
  id : String
  title : String
deriving DecidableEq, Repr

/-- Derived cache path of a `VideoInfo`, as path components relative to the
cache root: `Path(self.provider) / ("%s.mp3" % self.id)` (tutube.py
lines 55-57). -/
def VideoInfo.path (v : VideoInfo) : List String :=
  [v.provider, v.id ++ ".mp3"]

/-- Rendering of a component path the way POSIX `Path.__str__` does, with a
slash between components. -/
def pathString : List String → String
  | [] => ""
  | [x] => x
  | x :: rest => x ++ "/" ++ pathString rest

/-- Filesystem state threaded through the sequential embedding.  `files` is
an association list from absolute path (as components) to file content
bytes; `dirs` is the set of existing directories; `flocks` is the set of
paths whose advisory `fcntl.flock` lock is currently held; `downloads`
counts invocations of the collaborator materialize operation
(`ydl.download`, line 101) and `lockAcqs` counts lock acquisitions, the
instrumentation the specification describes as a fetch counter on the
collaborator. -/
structure FS where
  dirs : List (List String)
  files : List (List String × List Nat)
  flocks : List (List String)
  downloads : Nat
  lockAcqs : Nat
deriving DecidableEq, Repr

/-- Lookup of a file by path in the association list. -/
def findFile : List (List String × List Nat) → List String → Option (List Nat)
  | [], _ => none
  | kv :: rest, p => if kv.1 = p then some kv.2 else findFile rest p

/-- Removal of every entry for a path, modelling `os.unlink`. -/
def removeFile : List (List String × List Nat) → List String → List (List String × List Nat)
  | [], _ => []
  | kv :: rest, p => if kv.1 = p then removeFile rest p else kv :: removeFile rest p

/-- Removal of a path from a path set (used for `flocks`). -/
def removePath : List (List String) → List String → List (List String)
  | [], _ => []
  | q :: rest, p => if q = p then removePath rest p else q :: removePath rest p

/-- Faults of the embedded code.  `fileNotFound` is the `FileNotFoundError`
that `mp3_path.parent.mkdir(exist_ok=True)` raises when the cache root
itself is missing (mkdir is not passed parents=True); `cannotDownload` is
the tutube exception `CannotDownload` raised by `extract_info` (line 85);
`downloadError` is a youtube_dl `DownloadError` escaping from
`ydl.download` at line 101, which no tutube code catches;
`assertionError` is the `assert audio_file.exists()` at line 147. -/
inductive Err
  | fileNotFound
  | cannotDownload (msg : String)
  | downloadError (msg : String)
  | assertionError
deriving DecidableEq, Repr

/-- Raw result of `ydl.extract_info(url, download=False)`: either a single
video info dict or a dict with an `entries` list (a playlist), as
distinguished at tutube.py line 86.  Only the four fields read at
lines 91-92 are modelled. -/
structure RawInfo where
  webpage_url : String
  extractor : String
  id : String
  title : String
deriving DecidableEq, Repr

/-- Shape of the collaborator resolution result (`'entries' in result`). -/
inductive YdlResult
  | single (info : RawInfo)
  | entries (infos : List RawInfo)
deriving DecidableEq, Repr

/-- The external extraction/transcoding collaborator (youtube_dl), out of
scope per the specification.  `resolve` models
`ydl.extract_info(url, download=False)`, returning either a result or the
message of a raised `DownloadError`; `fetch` models
`ydl.download([info.url])`, returning either the bytes it writes at the
outtmpl-derived path `cache_root/provider/id.mp3` or the message of a
raised `DownloadError`. -/
structure Collab where
  resolve : String → Except String YdlResult
  fetch : VideoInfo → Except String (List Nat)

/-- The scoped lock context manager `lock(path)` (tutube.py lines 29-40):
`open(path, "w")` creates (or truncates) the lock file, `flock(LOCK_EX)`
acquires the advisory lock, the body runs, and the `finally` block always
releases the lock and unlinks the lock file, swallowing
`FileNotFoundError` from the unlink.  The body returns an optional fault
together with the new state, so that the cleanup runs whether the body
returns normally or raises; the fault is re-raised unchanged
afterwards. -/
def lockCtx (p : List String) (body : FS → Option Err × FS) (fs : FS) : Option Err × FS :=
  let fs1 : FS := { fs with
    files := (p, []) :: fs.files,
    flocks := p :: fs.flocks,
    lockAcqs := fs.lockAcqs + 1 }
  let r := body fs1
  (r.1, { r.2 with
    flocks := removePath r.2.flocks p,
    files := removeFile r.2.files p })

/-- Idempotent single-level directory creation
`dir.mkdir(exist_ok=True)`: a no-op when the directory exists, creation
when its parent exists, and `FileNotFoundError` otherwise (parents=True is
not passed, so missing ancestors are not created). -/
def mkdirExistOk (fs : FS) (d : List String) : Except Err FS :=
  if d ∈ fs.dirs then .ok fs
  else if d.dropLast ∈ fs.dirs then .ok { fs with dirs := d :: fs.dirs }
  else .error .fileNotFound

/-- The method `CachingDownloader.extract_info` (tutube.py lines 80-93): a
`DownloadError` from the collaborator resolution is re-raised as
`CannotDownload(str(exc))`; a playlist result contributes all entries, a
single result a one-element list; each entry becomes a `VideoInfo` from
its `webpage_url`, `extractor`, `id` and `title` fields. -/
def extract_info (c : Collab) (url : String) : Except Err (List VideoInfo) :=
  match c.resolve url with
  | .error msg => .error (.cannotDownload msg)
  | .ok r =>
    let infos := match r with
      | .entries l => l
      | .single i => [i]
    .ok (infos.map fun i => ⟨i.webpage_url, i.extractor, i.id, i.title⟩)

/-- The method `CachingDownloader._download` (tutube.py lines 95-102):
compute `mp3_path = cache_dir / info.path`, create its parent directory
(idempotently), and if the target file does not exist, materialize it via
`ydl.download([info.url])` under the scoped lock on
`mp3_path.with_suffix(".lock")`; finally return the metadata unchanged.
Since the file name is `id + ".mp3"`, `with_suffix(".lock")` yields
`id + ".lock"` (ids are non-empty per the specification).  A fault from
mkdir or from the materialization propagates, with the lock cleanup still
performed by `lockCtx`. -/
def _download (c : Collab) (cacheDir : List String) (info : VideoInfo) (fs : FS) :
    Except Err VideoInfo × FS :=
  let mp3Path := cacheDir ++ info.path
  match mkdirExistOk fs mp3Path.dropLast with
  | .error e => (.error e, fs)
  | .ok fs1 =>
    if (findFile fs1.files mp3Path).isSome then (.ok info, fs1)
    else
      let lockPath := cacheDir ++ [info.provider, info.id ++ ".lock"]
      match lockCtx lockPath (fun fsL =>
          let fsD : FS := { fsL with downloads := fsL.downloads + 1 }
          match c.fetch info with
          | .error msg => (some (.downloadError msg), fsD)
          | .ok bytes => (none, { fsD with files := (mp3Path, bytes) :: fsD.files })) fs1 with
      | (some e, fs2) => (.error e, fs2)
      | (none, fs2) => (.ok info, fs2)

/-- Sequential materialization of each resolved item, the list comprehension
`[self._download(i) for i in self.extract_info(url)]` at line 105: items
are processed left to right and a fault aborts the rest. -/
def downloadAll (c : Collab) (cacheDir : List String) :
    List VideoInfo → FS → Except Err (List VideoInfo) × FS
  | [], fs => (.ok [], fs)
  | i :: rest, fs =>
    match _download c cacheDir i fs with
    | (.error e, fs') => (.error e, fs')
    | (.ok v, fs') =>
      match downloadAll c cacheDir rest fs' with
      | (.error e, fs'') => (.error e, fs'')
      | (.ok vs, fs'') => (.ok (v :: vs), fs'')

/-- The method `CachingDownloader.get_videos` (tutube.py lines 104-105). -/
def get_videos (c : Collab) (cacheDir : List String) (url : String) (fs : FS) :
    Except Err (List VideoInfo) × FS :=
  match extract_info c url with
  | .error e => (.error e, fs)
  | .ok infos => downloadAll c cacheDir infos fs

/-- A WSGI request as far as the handler reads it: the REQUEST_METHOD,
PATH_INFO and QUERY_STRING entries of the environ. -/
structure Request where
  method : String
  pathInfo : String
  queryString : String
deriving DecidableEq, Repr

/-- A response body: either the plain-text body of an error response or the
streamed bytes of a cached file. -/
inductive Body
  | text (s : String)
  | file (bytes : List Nat)
deriving DecidableEq, Repr

/-- An HTTP response as produced through `start_response`: numeric status,
reason phrase, header list in emission order, and body. -/
structure Response where
  status : Nat
  reason : String
  headers : List (String × String)
  body : Body
deriving DecidableEq, Repr

/-- Standard reason phrase of the statuses the handler uses
(`HTTPStatus(status).phrase`). -/
def statusPhrase : Nat → String
  | 400 => "Bad Request"
  | 405 => "Method Not Allowed"
  | _ => ""

/-- Standard description of the statuses the handler uses
(`HTTPStatus(status).description`). -/
def statusDescription : Nat → String
  | 400 => "Bad request syntax or unsupported method"
  | 405 => "Specify valid HTTP verb (GET, HEAD, or POST)."
  | _ => ""

/-- Data of a raised `YoutubeDownloader.HTTPError` (tutube.py
lines 113-121): the reason falls back to the standard phrase and the body
to the standard description. -/
structure HTTPErrorData where
  status : Nat
  reason : String
  more : String
deriving DecidableEq, Repr

/-- Constructor mirroring `HTTPError.__init__(status, reason, more)`. -/
def mkHTTPError (status : Nat) (reason more : Option String) : HTTPErrorData :=
  { status := status,
    reason := reason.getD (statusPhrase status),
    more := more.getD (statusDescription status) }

/-- Conversion of a caught `HTTPError` into the response emitted by
`__call__` (tutube.py lines 129-131): plain-text content type and the
`more` text as body. -/
def errorResponse (e : HTTPErrorData) : Response :=
  { status := e.status,
    reason := e.reason,
    headers := [("Content-Type", "text/plain")],
    body := .text e.more }

/-- Python `str.strip("/")`: remove leading and trailing slash characters. -/
def stripSlashes (s : String) : String :=
  ⟨((s.data.dropWhile (fun ch => ch = '/')).reverse.dropWhile (fun ch => ch = '/')).reverse⟩

/-- The target URL recovered from the request at tutube.py line 135:
`"{PATH_INFO}?{QUERY_STRING}".format(**environ).strip("/")`. -/
def targetUrl (req : Request) : String :=
  stripSlashes (req.pathInfo ++ "?" ++ req.queryString)

/-- Quoting of a header parameter value the way
`wsgiref.headers.Headers.add_header` does for `filename=title`: the value
is wrapped in double quotes with backslash and quote escaped. -/
def quoteParam (s : String) : String :=
  "\"" ++ ⟨s.data.foldr (fun ch acc =>
    if ch = '\\' ∨ ch = '"' then '\\' :: ch :: acc else ch :: acc) []⟩ ++ "\""

/-- Outcome of `do_GET` before `__call__` postprocessing: a streamed
response, a raised `HTTPError`, or an exception of another class that the
handler does not catch. -/
inductive GetErr
  | httpError (e : HTTPErrorData)
  | unhandled (e : Err)
deriving DecidableEq, Repr

/-- The handler `YoutubeDownloader.do_GET` (tutube.py lines 133-154): parse
the target URL out of path and query; an empty target (the literal
string `"?"`) is a 400; `get_videos` faults of class `CannotDownload` map
to a 400 carrying the message, any other fault is not caught; a result
that is not exactly one video is a 400 `playlists not supported yet`;
otherwise assert the cached file exists and emit a 200 with
attachment/content-type/content-length headers and the file bytes. -/
def do_GET (c : Collab) (cacheDir : List String) (req : Request) (fs : FS) :
    Except GetErr Response × FS :=
  let video_url := targetUrl req
  if video_url = "?" then
    (.error (.httpError (mkHTTPError 400 none (some "no URL provided"))), fs)
  else
    match get_videos c cacheDir video_url fs with
    | (.error (.cannotDownload msg), fs') =>
      (.error (.httpError (mkHTTPError 400 (some "Cannot download") (some msg))), fs')
    | (.error e, fs') => (.error (.unhandled e), fs')
    | (.ok videos, fs') =>
      match videos with
      | [video] =>
        let audioFile := cacheDir ++ video.path
        match findFile fs'.files audioFile with
        | none => (.error (.unhandled .assertionError), fs')
        | some bytes =>
          (.ok { status := 200,
                 reason := "OK",
                 headers :=
                   [("Content-Disposition", "attachment; filename=" ++ quoteParam video.title),
                    ("Content-Type", "audio/mpeg"),
                    ("Content-Length", toString bytes.length)],
                 body := .file bytes }, fs')
      | _ => (.error (.httpError (mkHTTPError 400 none (some "playlists not supported yet"))), fs')

/-- The WSGI entry point `YoutubeDownloader.__call__` (tutube.py
lines 123-131): dispatch on the request method (only `do_GET` exists, any
other method raises 405), and convert a raised `HTTPError` into its error
response; exceptions of other classes escape the application. -/
def app (c : Collab) (cacheDir : List String) (req : Request) (fs : FS) :
    Except Err Response × FS :=
  if req.method = "GET" then
    match do_GET c cacheDir req fs with
    | (.ok r, fs') => (.ok r, fs')
    | (.error (.httpError e), fs') => (.ok (errorResponse e), fs')
    | (.error (.unhandled e), fs') => (.error e, fs')
  else (.ok (errorResponse (mkHTTPError 405 none none)), fs)

/-!
Interleaving semantics for two concurrent executions of
`CachingDownloader._download` on the same resolved resource (the same
provider and id, hence the same target path and the same lock path).
Each thread runs the program of tutube.py lines 98-101 together with the
lock protocol of lines 29-40:

* `Pc.start`     - about to evaluate `not mp3_path.exists()` (line 98);
* `Pc.wantLock`  - blocked in `flock(fp, LOCK_EX)` (line 33) until the
                   advisory lock on the shared lock path is free; taking
                   it creates the lock file (line 31);
* `Pc.inCS`      - holding the lock, about to run `ydl.download` (line 101),
                   which materializes the target file;
* `Pc.releasing` - about to run the `finally` block: release the lock and
                   unlink the lock file (lines 36-40);
* `Pc.done`      - returned.

With exactly two concurrent callers the atomic treatment of
open-then-flock is faithful: the second caller either opens the lock file
before the holder unlinks it (same inode, so flock blocks until release)
or opens it afterwards (fresh inode, but the holder has already released).
-/

/-- Program counter of one thread running the miss/hit protocol of
`_download`. -/
inductive Pc
  | start
  | wantLock
  | inCS
  | releasing
  | done
deriving DecidableEq, Repr

/-- Shared configuration of the two-thread interleaving: whether the target
file exists, who holds the advisory lock, whether the lock file exists,
the two program counters and the per-thread count of `ydl.download`
invocations. -/
structure CConfig where
  fileExists : Bool
  lockHolder : Option Bool
  lockFile : Bool
  pc0 : Pc
  pc1 : Pc
  dl0 : Nat
  dl1 : Nat
deriving DecidableEq, Repr

/-- One atomic step of thread 0. -/
def step0 (c : CConfig) : CConfig :=
  match c.pc0 with
  | .start => if c.fileExists then { c with pc0 := .done } else { c with pc0 := .wantLock }
  | .wantLock =>
    match c.lockHolder with
    | none => { c with lockHolder := some false, lockFile := true, pc0 := .inCS }
    | some _ => c
  | .inCS => { c with fileExists := true, dl0 := c.dl0 + 1, pc0 := .releasing }
  | .releasing => { c with lockHolder := none, lockFile := false, pc0 := .done }
  | .done => c

/-- One atomic step of thread 1. -/
def step1 (c : CConfig) : CConfig :=
  match c.pc1 with
  | .start => if c.fileExists then { c with pc1 := .done } else { c with pc1 := .wantLock }
  | .wantLock =>
    match c.lockHolder with
    | none => { c with lockHolder := some true, lockFile := true, pc1 := .inCS }
    | some _ => c
  | .inCS => { c with fileExists := true, dl1 := c.dl1 + 1, pc1 := .releasing }
  | .releasing => { c with lockHolder := none, lockFile := false, pc1 := .done }
  | .done => c

/-- Step of the thread a schedule entry names (`true` is thread 1). -/
def stepThread (c : CConfig) (t : Bool) : CConfig :=
  if t then step1 c else step0 c

/-- Execution of a whole schedule, one thread step per entry. -/
def runSched (sched : List Bool) (c : CConfig) : CConfig :=
  sched.foldl stepThread c

/-- Initial configuration of two concurrent cache misses: the target file
absent, the lock free, both threads at the existence check. -/
def initConfig : CConfig :=
  { fileExists := false, lockHolder := none, lockFile := false,
    pc0 := .start, pc1 := .start, dl0 := 0, dl1 := 0 }

/-- A thread is inside the lock-protected materialization section. -/
def inCrit (p : Pc) : Prop := p = Pc.inCS ∨ p = Pc.releasing

instance (p : Pc) : Decidable (inCrit p) := by
  unfold inCrit
  infer_instance

end Tutube

namespace Tutube

/-! Basic lemmas about the association-list filesystem operations. -/

theorem findFile_removeFile_self (l : List (List String × List Nat)) (p : List String) :
    findFile (removeFile l p) p = none := by
  induction l with
  | nil => rfl
  | cons kv rest ih =>
    simp only [removeFile]
    split
    · exact ih
    · simp only [findFile]
      rw [if_neg (by assumption)]
      exact ih

theorem findFile_removeFile_ne (l : List (List String × List Nat)) (p q : List String)
    (h : q ≠ p) : findFile (removeFile l p) q = findFile l q := by
  induction l with
  | nil => rfl
  | cons kv rest ih =>
    simp only [removeFile, findFile]
    by_cases h1 : kv.1 = p
    · rw [if_pos h1, ih, if_neg (fun hq => h (by rw [← hq, h1]))]
    · rw [if_neg h1]
      simp only [findFile, ih]

theorem not_mem_removePath_self (l : List (List String)) (p : List String) :
    p ∉ removePath l p := by
  induction l with
  | nil => simp [removePath]
  | cons q rest ih =>
    simp only [removePath]
    split
    · exact ih
    · intro hmem
      rcases List.mem_cons.mp hmem with h | h
      · exact (by assumption : ¬q = p) h.symm
      · exact ih h

theorem isSome_findFile_cons (kv : List String × List Nat)
    (l : List (List String × List Nat)) (q : List String)
    (h : (findFile l q).isSome) : (findFile (kv :: l) q).isSome := by
  simp only [findFile]
  split
  · rfl
  · exact h

/-! Path-shape lemmas: a lock file name never coincides with an mp3 file
name, because one ends in the character k and the other in the
character 3. -/

theorem lock_ne_mp3 (s t : String) : s ++ ".lock" ≠ t ++ ".mp3" := by
  intro h
  have hd := congrArg String.data h
  rw [String.data_append, String.data_append] at hd
  have h2 := congrArg List.getLast? hd
  rw [List.getLast?_append_of_ne_nil _ (by decide),
    List.getLast?_append_of_ne_nil _ (by decide)] at h2
  exact absurd h2 (by decide)

theorem mp3_path_ne_lock_path (q : List String) (s : String) (cd : List String) (a t : String) :
    q ++ [s ++ ".mp3"] ≠ cd ++ [a, t ++ ".lock"] := by
  intro h
  rw [show cd ++ [a, t ++ ".lock"] = (cd ++ [a]) ++ [t ++ ".lock"] by simp] at h
  have h2 := congrArg List.getLast? h
  rw [List.getLast?_concat, List.getLast?_concat] at h2
  exact lock_ne_mp3 t s (Option.some.inj h2).symm

theorem dropLast_append_pair (l : List String) (a b : String) :
    (l ++ [a, b]).dropLast = l ++ [a] := by
  rw [show l ++ [a, b] = (l ++ [a]) ++ [b] by simp, List.dropLast_concat]

theorem cacheDir_path_dropLast (cd : List String) (i : VideoInfo) :
    (cd ++ i.path).dropLast = cd ++ [i.provider] := by
  simp only [VideoInfo.path]
  exact dropLast_append_pair cd _ _

theorem cacheDir_path_split (cd : List String) (i : VideoInfo) :
    cd ++ i.path = (cd ++ [i.provider]) ++ [i.id ++ ".mp3"] := by
  simp [VideoInfo.path]

/-! Anatomy of `mkdirExistOk`. -/

theorem mkdirExistOk_ok {fs : FS} {d : List String} {fs1 : FS}
    (h : mkdirExistOk fs d = .ok fs1) :
    d ∈ fs1.dirs ∧ fs1.files = fs.files ∧ fs1.flocks = fs.flocks ∧
    fs1.downloads = fs.downloads ∧ fs1.lockAcqs = fs.lockAcqs ∧
    (∀ x, x ∈ fs.dirs → x ∈ fs1.dirs) ∧
    (∀ x, x ∈ fs1.dirs → x ∈ fs.dirs ∨ x = d) := by
  unfold mkdirExistOk at h
  split at h
  · cases h
    exact ⟨by assumption, rfl, rfl, rfl, rfl, fun x hx => hx, fun x hx => Or.inl hx⟩
  · split at h
    · cases h
      refine ⟨List.mem_cons_self _ _, rfl, rfl, rfl, rfl,
        fun x hx => List.mem_cons_of_mem _ hx, fun x hx => ?_⟩
      rcases List.mem_cons.mp hx with h | h
      · exact Or.inr h
      · exact Or.inl h
    · exact Except.noConfusion h

theorem mkdirExistOk_mem {fs : FS} {d : List String} (h : d ∈ fs.dirs) :
    mkdirExistOk fs d = .ok fs := by
  unfold mkdirExistOk
  rw [if_pos h]

end Tutube

namespace Tutube

/-! Anatomy of `_download`. -/

theorem _download_ok {c : Collab} {cd : List String} {i : VideoInfo} {fs : FS}
    {v : VideoInfo} {fs' : FS} (h : _download c cd i fs = (.ok v, fs')) :
    v = i ∧ (findFile fs'.files (cd ++ i.path)).isSome ∧ (cd ++ [i.provider]) ∈ fs'.dirs := by
  simp only [_download, lockCtx] at h
  split at h
  · simp at h
  · next fs1 hmk =>
    have hm := mkdirExistOk_ok hmk
    rw [cacheDir_path_dropLast] at hm
    split at h
    · next hhit =>
      simp only [Prod.mk.injEq, Except.ok.injEq] at h
      obtain ⟨rfl, rfl⟩ := h
      exact ⟨rfl, hhit, hm.1⟩
    · rcases hf : c.fetch i with msg | bytes
      · rw [hf] at h
        simp at h
      · rw [hf] at h
        simp only [Prod.mk.injEq, Except.ok.injEq] at h
        obtain ⟨rfl, rfl⟩ := h
        refine ⟨rfl, ?_, hm.1⟩
        show (findFile (removeFile ((cd ++ i.path, bytes) :: _ :: fs1.files)
          (cd ++ [i.provider, i.id ++ ".lock"])) (cd ++ i.path)).isSome
        rw [findFile_removeFile_ne _ _ _
          (by rw [cacheDir_path_split]; exact mp3_path_ne_lock_path _ _ _ _ _)]
        simp [findFile]

end Tutube

namespace Tutube

theorem _download_mono {c : Collab} {cd : List String} {i : VideoInfo} {fs : FS}
    {r : Except Err VideoInfo} {fs' : FS} (h : _download c cd i fs = (r, fs')) :
    (∀ d, d ∈ fs.dirs → d ∈ fs'.dirs) ∧
    (∀ q s, (findFile fs.files (q ++ [s ++ ".mp3"])).isSome →
      (findFile fs'.files (q ++ [s ++ ".mp3"])).isSome) := by
  simp only [_download, lockCtx] at h
  split at h
  · obtain ⟨rfl, rfl⟩ := Prod.mk.inj h
    exact ⟨fun d hd => hd, fun q s hq => hq⟩
  · next fs1 hmk =>
    have hm := mkdirExistOk_ok hmk
    split at h
    · obtain ⟨rfl, rfl⟩ := Prod.mk.inj h
      exact ⟨hm.2.2.2.2.2.1, fun q s hq => by rw [hm.2.1]; exact hq⟩
    · rcases hf : c.fetch i with msg | bytes <;> rw [hf] at h <;>
        obtain ⟨rfl, rfl⟩ := Prod.mk.inj h <;>
        refine ⟨hm.2.2.2.2.2.1, fun q s hq => ?_⟩
      · show (findFile (removeFile ((cd ++ [i.provider, i.id ++ ".lock"], []) :: fs1.files)
          (cd ++ [i.provider, i.id ++ ".lock"])) (q ++ [s ++ ".mp3"])).isSome
        rw [findFile_removeFile_ne _ _ _ (mp3_path_ne_lock_path _ _ _ _ _)]
        refine isSome_findFile_cons _ _ _ ?_
        rw [hm.2.1]
        exact hq
      · show (findFile (removeFile
          ((cd ++ i.path, bytes) :: (cd ++ [i.provider, i.id ++ ".lock"], []) :: fs1.files)
          (cd ++ [i.provider, i.id ++ ".lock"])) (q ++ [s ++ ".mp3"])).isSome
        rw [findFile_removeFile_ne _ _ _ (mp3_path_ne_lock_path _ _ _ _ _)]
        refine isSome_findFile_cons _ _ _ (isSome_findFile_cons _ _ _ ?_)
        rw [hm.2.1]
        exact hq

theorem _download_root {c : Collab} {cd : List String} {i : VideoInfo} {fs : FS}
    {r : Except Err VideoInfo} {fs' : FS} (h : _download c cd i fs = (r, fs'))
    (hcd : cd ∈ fs.dirs) :
    r ≠ .error .fileNotFound ∧ cd ∈ fs'.dirs ∧
    (∀ d, d ∈ fs'.dirs → d ∈ fs.dirs ∨ d = cd ++ [i.provider]) := by
  simp only [_download, lockCtx] at h
  split at h
  · next e hmk =>
    rw [cacheDir_path_dropLast] at hmk
    unfold mkdirExistOk at hmk
    split at hmk
    · exact Except.noConfusion hmk
    · split at hmk
      · exact Except.noConfusion hmk
      · next hpar =>
        rw [List.dropLast_concat] at hpar
        exact absurd hcd hpar
  · next fs1 hmk =>
    have hm := mkdirExistOk_ok hmk
    rw [cacheDir_path_dropLast] at hm
    split at h
    · obtain ⟨rfl, rfl⟩ := Prod.mk.inj h
      exact ⟨fun he => Except.noConfusion he, hm.2.2.2.2.2.1 _ hcd, hm.2.2.2.2.2.2⟩
    · rcases hf : c.fetch i with msg | bytes <;> rw [hf] at h <;>
        obtain ⟨rfl, rfl⟩ := Prod.mk.inj h
      · refine ⟨fun he => ?_, hm.2.2.2.2.2.1 _ hcd, hm.2.2.2.2.2.2⟩
        exact Err.noConfusion (Except.error.inj he)
      · exact ⟨fun he => Except.noConfusion he, hm.2.2.2.2.2.1 _ hcd, hm.2.2.2.2.2.2⟩

theorem _download_hit {c : Collab} {cd : List String} {i : VideoInfo} {fs : FS}
    (hd : (cd ++ [i.provider]) ∈ fs.dirs)
    (hf : (findFile fs.files (cd ++ i.path)).isSome) :
    _download c cd i fs = (.ok i, fs) := by
  simp only [_download]
  rw [cacheDir_path_dropLast, mkdirExistOk_mem hd]
  simp [hf]

end Tutube

namespace Tutube

/-! Anatomy of `downloadAll` and `get_videos`. -/

theorem downloadAll_mono {c : Collab} {cd : List String} :
    ∀ {infos : List VideoInfo} {fs : FS} {r : Except Err (List VideoInfo)} {fs' : FS},
    downloadAll c cd infos fs = (r, fs') →
    (∀ d, d ∈ fs.dirs → d ∈ fs'.dirs) ∧
    (∀ q s, (findFile fs.files (q ++ [s ++ ".mp3"])).isSome →
      (findFile fs'.files (q ++ [s ++ ".mp3"])).isSome) := by
  intro infos
  induction infos with
  | nil =>
    intro fs r fs' h
    obtain ⟨rfl, rfl⟩ := Prod.mk.inj h
    exact ⟨fun d hd => hd, fun q s hq => hq⟩
  | cons i rest ih =>
    intro fs r fs' h
    simp only [downloadAll] at h
    rcases hd : _download c cd i fs with ⟨ri, fsi⟩
    rw [hd] at h
    have hmono := _download_mono hd
    cases ri with
    | error e =>
      obtain ⟨rfl, rfl⟩ := Prod.mk.inj h
      exact hmono
    | ok v =>
      dsimp only at h
      rcases hrest : downloadAll c cd rest fsi with ⟨rr, fsr⟩
      rw [hrest] at h
      have hmono2 := ih hrest
      cases rr with
      | error e =>
        obtain ⟨rfl, rfl⟩ := Prod.mk.inj h
        exact ⟨fun d hdm => hmono2.1 d (hmono.1 d hdm),
          fun q s hq => hmono2.2 q s (hmono.2 q s hq)⟩
      | ok vs =>
        obtain ⟨rfl, rfl⟩ := Prod.mk.inj h
        exact ⟨fun d hdm => hmono2.1 d (hmono.1 d hdm),
          fun q s hq => hmono2.2 q s (hmono.2 q s hq)⟩

theorem downloadAll_ok {c : Collab} {cd : List String} :
    ∀ {infos : List VideoInfo} {fs : FS} {l : List VideoInfo} {fs' : FS},
    downloadAll c cd infos fs = (.ok l, fs') →
    l = infos ∧
    (∀ i, i ∈ infos →
      (findFile fs'.files (cd ++ i.path)).isSome ∧ (cd ++ [i.provider]) ∈ fs'.dirs) := by
  intro infos
  induction infos with
  | nil =>
    intro fs l fs' h
    obtain ⟨hl, rfl⟩ := Prod.mk.inj h
    obtain rfl := (Except.ok.inj hl).symm
    exact ⟨rfl, fun i hi => absurd hi (List.not_mem_nil i)⟩
  | cons i rest ih =>
    intro fs l fs' h
    simp only [downloadAll] at h
    rcases hd : _download c cd i fs with ⟨ri, fsi⟩
    rw [hd] at h
    cases ri with
    | error e => simp at h
    | ok v =>
      dsimp only at h
      rcases hrest : downloadAll c cd rest fsi with ⟨rr, fsr⟩
      rw [hrest] at h
      cases rr with
      | error e => simp at h
      | ok vs =>
        obtain ⟨hl, rfl⟩ := Prod.mk.inj h
        obtain rfl := (Except.ok.inj hl).symm
        obtain ⟨rfl, hown, hprov⟩ := _download_ok hd
        obtain ⟨rfl, hrest2⟩ := ih hrest
        have hmono2 := downloadAll_mono hrest
        refine ⟨rfl, fun j hj => ?_⟩
        rcases List.mem_cons.mp hj with rfl | hjr
        · constructor
          · rw [cacheDir_path_split] at hown ⊢
            exact hmono2.2 _ _ hown
          · exact hmono2.1 _ hprov
        · exact hrest2 j hjr

theorem downloadAll_root {c : Collab} {cd : List String} :
    ∀ {infos : List VideoInfo} {fs : FS} {r : Except Err (List VideoInfo)} {fs' : FS},
    downloadAll c cd infos fs = (r, fs') → cd ∈ fs.dirs →
    r ≠ .error .fileNotFound ∧ cd ∈ fs'.dirs ∧
    (∀ d, d ∈ fs'.dirs → d ∈ fs.dirs ∨ ∃ i, i ∈ infos ∧ d = cd ++ [i.provider]) := by
  intro infos
  induction infos with
  | nil =>
    intro fs r fs' h hcd
    obtain ⟨rfl, rfl⟩ := Prod.mk.inj h
    exact ⟨fun he => Except.noConfusion he, hcd, fun d hd => Or.inl hd⟩
  | cons i rest ih =>
    intro fs r fs' h hcd
    simp only [downloadAll] at h
    rcases hd : _download c cd i fs with ⟨ri, fsi⟩
    rw [hd] at h
    obtain ⟨hri, hcdi, hshape⟩ := _download_root hd hcd
    cases ri with
    | error e =>
      obtain ⟨rfl, rfl⟩ := Prod.mk.inj h
      refine ⟨fun hcontra => hri ?_, hcdi,
        fun d hdm => (hshape d hdm).imp id (fun he => ⟨i, List.mem_cons_self i rest, he⟩)⟩
      rw [Except.error.inj hcontra]
    | ok v =>
      dsimp only at h
      rcases hrest : downloadAll c cd rest fsi with ⟨rr, fsr⟩
      rw [hrest] at h
      obtain ⟨hrr, hcdr, hshaper⟩ := ih hrest hcdi
      cases rr with
      | error e =>
        obtain ⟨rfl, rfl⟩ := Prod.mk.inj h
        refine ⟨hrr, hcdr, fun d hdm => ?_⟩
        rcases hshaper d hdm with hin | ⟨j, hj, he⟩
        · exact (hshape d hin).imp id (fun he => ⟨i, List.mem_cons_self i rest, he⟩)
        · exact Or.inr ⟨j, List.mem_cons_of_mem i hj, he⟩
      | ok vs =>
        obtain ⟨rfl, rfl⟩ := Prod.mk.inj h
        refine ⟨fun he => Except.noConfusion he, hcdr, fun d hdm => ?_⟩
        rcases hshaper d hdm with hin | ⟨j, hj, he⟩
        · exact (hshape d hin).imp id (fun he => ⟨i, List.mem_cons_self i rest, he⟩)
        · exact Or.inr ⟨j, List.mem_cons_of_mem i hj, he⟩

theorem downloadAll_hit {c : Collab} {cd : List String} :
    ∀ {infos : List VideoInfo} {fs : FS},
    (∀ i, i ∈ infos →
      (findFile fs.files (cd ++ i.path)).isSome ∧ (cd ++ [i.provider]) ∈ fs.dirs) →
    downloadAll c cd infos fs = (.ok infos, fs) := by
  intro infos
  induction infos with
  | nil => intro fs _; rfl
  | cons i rest ih =>
    intro fs hall
    have hi := hall i (List.mem_cons_self i rest)
    simp only [downloadAll]
    rw [_download_hit hi.2 hi.1]
    dsimp only
    rw [ih (fun j hj => hall j (List.mem_cons_of_mem i hj))]

end Tutube

namespace Tutube

theorem get_videos_ok_present {c : Collab} {cd : List String} {url : String}
    {fs : FS} {l : List VideoInfo} {fs' : FS}
    (h : get_videos c cd url fs = (.ok l, fs')) :
    ∀ i, i ∈ l →
      (findFile fs'.files (cd ++ i.path)).isSome ∧ (cd ++ [i.provider]) ∈ fs'.dirs := by
  unfold get_videos at h
  rcases hext : extract_info c url with e | infos <;> rw [hext] at h
  · simp at h
  · obtain ⟨rfl, h2⟩ := downloadAll_ok h
    exact h2

theorem get_videos_root {c : Collab} {cd : List String} {url : String}
    {fs : FS} {r : Except Err (List VideoInfo)} {fs' : FS}
    (h : get_videos c cd url fs = (r, fs')) (hcd : cd ∈ fs.dirs) :
    r ≠ .error .fileNotFound ∧
    (∀ d, d ∈ fs'.dirs → d ∈ fs.dirs ∨ ∃ p, d = cd ++ [p]) := by
  unfold get_videos at h
  rcases hext : extract_info c url with e | infos <;> rw [hext] at h
  · obtain ⟨rfl, rfl⟩ := Prod.mk.inj h
    unfold extract_info at hext
    rcases hres : c.resolve url with msg | rr <;> rw [hres] at hext
    · obtain rfl := Except.error.inj hext
      exact ⟨fun he => Err.noConfusion (Except.error.inj he), fun d hd => Or.inl hd⟩
    · dsimp only at hext
      exact Except.noConfusion hext
  · obtain ⟨h1, _, h3⟩ := downloadAll_root h hcd
    exact ⟨h1, fun d hd =>
      (h3 d hd).imp id (fun hi => hi.elim (fun i hi2 => ⟨i.provider, hi2.2⟩))⟩

end Tutube

namespace Tutube

/-! Concrete fixtures used by witnesses and counterexamples, following the
end-to-end scenario of the specification and of tests.py. -/

/-- Fixture: the raw collaborator record of the test video. -/
def testRaw : RawInfo :=
  { webpage_url := "https://www.youtube.com/watch?v=C0DPdy98e4c",
    extractor := "youtube", id := "C0DPdy98e4c", title := "TEST VIDEO" }

/-- Fixture: the test video metadata as `extract_info` builds it. -/
def testVideo : VideoInfo :=
  { url := "https://www.youtube.com/watch?v=C0DPdy98e4c",
    provider := "youtube", id := "C0DPdy98e4c", title := "TEST VIDEO" }

/-- Fixture: a collaborator that resolves every URL to the single test video
and materializes a three-byte file. -/
def testCollab : Collab :=
  { resolve := fun _ => .ok (.single testRaw), fetch := fun _ => .ok [7, 7, 7] }

/-- Fixture: a filesystem holding only the cache root directory. -/
def fsRoot : FS :=
  { dirs := [["cache"]], files := [], flocks := [], downloads := 0, lockAcqs := 0 }

/-- Fixture: an empty filesystem, without even the cache root. -/
def fsEmpty : FS :=
  { dirs := [], files := [], flocks := [], downloads := 0, lockAcqs := 0 }

/-- Fixture: the filesystem after the test video has been downloaded once
into the cache rooted at `cache`. -/
def fsAfter : FS :=
  { dirs := [["cache", "youtube"], ["cache"]],
    files := [(["cache", "youtube", "C0DPdy98e4c.mp3"], [7, 7, 7])],
    flocks := [], downloads := 1, lockAcqs := 1 }

/-- Fixture: a GET request whose path and query recover the test URL. -/
def testReq : Request :=
  { method := "GET", pathInfo := "/https://www.youtube.com/watch",
    queryString := "v=C0DPdy98e4c" }

/-! Claim theorems for the caching downloader. -/

/-- C2: for every URL on which `get_videos(url)` returns successfully, every
metadata record in the returned sequence has a materialized file present
at `cache_root/path` (with path `provider/id.mp3`) at the time of
return. -/
theorem get_videos_files_present (c : Collab) (cd : List String) (url : String)
    (fs : FS) (l : List VideoInfo) (fs' : FS)
    (h : get_videos c cd url fs = (.ok l, fs')) :
    ∀ v, v ∈ l → (findFile fs'.files (cd ++ v.path)).isSome := by
  intro v hv
  exact (get_videos_ok_present h v hv).1

/-- Witness for C2: the concrete end-to-end run materializes the test file. -/
theorem get_videos_files_present_witness :
    (findFile fsAfter.files (["cache"] ++ testVideo.path)).isSome :=
  get_videos_files_present testCollab ["cache"] "https://www.youtube.com/watch?v=C0DPdy98e4c"
    fsRoot [testVideo] fsAfter (by decide) testVideo (by decide)

/-- C3: calling `get_videos(url)` twice sequentially yields identical
metadata both times and the second call performs no materialization and
acquires no lock: the state, including the download and lock counters, is
returned unchanged, because for every item the target file already exists
and the existence check alone skips the download branch. -/
theorem get_videos_idempotent (c : Collab) (cd : List String) (url : String)
    (fs : FS) (l : List VideoInfo) (fs' : FS)
    (h : get_videos c cd url fs = (.ok l, fs')) :
    get_videos c cd url fs' = (.ok l, fs') ∧
    (get_videos c cd url fs').2.downloads = fs'.downloads ∧
    (get_videos c cd url fs').2.lockAcqs = fs'.lockAcqs := by
  have hpres := get_videos_ok_present h
  have hmain : get_videos c cd url fs' = (.ok l, fs') := by
    unfold get_videos at h ⊢
    rcases hext : extract_info c url with e | infos
    · rw [hext] at h
      simp at h
    · rw [hext] at h
      dsimp only at h ⊢
      obtain ⟨rfl, _⟩ := downloadAll_ok h
      exact downloadAll_hit hpres
  exact ⟨hmain, by rw [hmain], by rw [hmain]⟩

/-- Witness for C3: repeating the concrete end-to-end run changes nothing. -/
theorem get_videos_idempotent_witness :
    get_videos testCollab ["cache"] "https://www.youtube.com/watch?v=C0DPdy98e4c" fsAfter =
      (.ok [testVideo], fsAfter) :=
  (get_videos_idempotent testCollab ["cache"]
    "https://www.youtube.com/watch?v=C0DPdy98e4c" fsRoot [testVideo] fsAfter (by decide)).1

/-- C4: after the scoped `lock(lock_path)` section completes, whether the
protected body returns normally or raises, the advisory lock is released
and the lock file no longer exists on disk, and the cleanup never changes
the outcome of the body: in particular a lock file already missing at
cleanup time (removal of a missing path is a no-op) is not an error. -/
theorem lock_cleanup (p : List String) (body : FS → Option Err × FS) (fs : FS) :
    findFile (lockCtx p body fs).2.files p = none ∧
    p ∉ (lockCtx p body fs).2.flocks ∧
    (lockCtx p body fs).1 =
      (body { fs with
        files := (p, []) :: fs.files,
        flocks := p :: fs.flocks,
        lockAcqs := fs.lockAcqs + 1 }).1 :=
  ⟨findFile_removeFile_self _ _, not_mem_removePath_self _ _, rfl⟩

/-- Witness for C4: a concrete scoped section that deletes its own lock file
inside the body still completes without a cleanup fault. -/
theorem lock_cleanup_witness :
    findFile (lockCtx ["cache", "youtube", "C0DPdy98e4c.lock"]
      (fun fsb => (none, { fsb with files := [] })) fsRoot).2.files
      ["cache", "youtube", "C0DPdy98e4c.lock"] = none ∧
    (lockCtx ["cache", "youtube", "C0DPdy98e4c.lock"]
      (fun fsb => (none, { fsb with files := [] })) fsRoot).1 = none :=
  ⟨(lock_cleanup ["cache", "youtube", "C0DPdy98e4c.lock"]
      (fun fsb => (none, { fsb with files := [] })) fsRoot).1, rfl⟩

/-- C5: the derived path of a `VideoInfo` is `provider/id.mp3`, a pure
function of provider and id alone, independent of url and title; in
particular for provider youtube and id C0DPdy98e4c it is always
`youtube/C0DPdy98e4c.mp3`. -/
theorem videoinfo_path_pure (u p i t u2 t2 : String) :
    VideoInfo.path { url := u, provider := p, id := i, title := t } =
      VideoInfo.path { url := u2, provider := p, id := i, title := t2 } ∧
    pathString (VideoInfo.path { url := u, provider := p, id := i, title := t }) =
      p ++ "/" ++ i ++ ".mp3" ∧
    pathString (VideoInfo.path
      { url := u, provider := "youtube", id := "C0DPdy98e4c", title := t }) =
      "youtube/C0DPdy98e4c.mp3" := by
  refine ⟨rfl, ?_, ?_⟩
  · simp [VideoInfo.path, pathString, String.append_assoc]
  · rfl

/-- Witness for C5: the concrete instance from the specification. -/
theorem videoinfo_path_pure_witness :
    pathString (VideoInfo.path
      { url := "u", provider := "youtube", id := "C0DPdy98e4c", title := "TEST VIDEO" }) =
      "youtube/C0DPdy98e4c.mp3" :=
  (videoinfo_path_pure "u" "youtube" "C0DPdy98e4c" "TEST VIDEO" "u2" "t2").2.2

/-- C10: `get_videos` creates only the per-provider subdirectory of the
cache root (idempotently); the cache root itself is never created, so when
the configured cache root is missing (and hence has no subdirectories) a
call that resolves at least one item fails with the file-not-found fault
and leaves the filesystem unchanged, while when the cache root exists that
error branch is unreachable. -/
theorem cache_root_precondition (c : Collab) (cd : List String) (url : String) (fs : FS) :
    ((cd ∉ fs.dirs) → (∀ p, cd ++ [p] ∉ fs.dirs) →
      ∀ infos, extract_info c url = .ok infos → infos ≠ [] →
        get_videos c cd url fs = (.error .fileNotFound, fs)) ∧
    (cd ∈ fs.dirs →
      (get_videos c cd url fs).1 ≠ .error .fileNotFound ∧
      (∀ d, d ∈ (get_videos c cd url fs).2.dirs → d ∈ fs.dirs ∨ ∃ p, d = cd ++ [p])) := by
  constructor
  · intro hroot hsub infos hext hne
    unfold get_videos
    rw [hext]
    rcases infos with _ | ⟨i, rest⟩
    · exact absurd rfl hne
    · have hmk : mkdirExistOk fs ((cd ++ i.path).dropLast) = .error .fileNotFound := by
        rw [cacheDir_path_dropLast]
        unfold mkdirExistOk
        rw [if_neg (hsub i.provider), if_neg (by rw [List.dropLast_concat]; exact hroot)]
      simp only [downloadAll, _download, hmk]
  · intro hcd
    rcases hgv : get_videos c cd url fs with ⟨r2, fs2⟩
    exact get_videos_root hgv hcd

/-- Witness for C10: with a missing cache root the concrete run fails with
file-not-found and changes nothing, and with the root present it does
not. -/
theorem cache_root_precondition_witness :
    get_videos testCollab ["cache"] "u" fsEmpty = (.error .fileNotFound, fsEmpty) ∧
    (get_videos testCollab ["cache"] "u" fsRoot).1 ≠ .error .fileNotFound :=
  ⟨(cache_root_precondition testCollab ["cache"] "u" fsEmpty).1 (by decide)
      (fun p => by simp [fsEmpty]) [testVideo] (by decide) (by decide),
    ((cache_root_precondition testCollab ["cache"] "u" fsRoot).2 (by decide)).1⟩

end Tutube

namespace Tutube

/-! Claim theorems for the serving layer. -/

/-- Fixture: a second raw record, so that a playlist result has two
entries. -/
def testRaw2 : RawInfo :=
  { webpage_url := "https://www.youtube.com/watch?v=second",
    extractor := "youtube", id := "second", title := "SECOND" }

/-- Fixture: a collaborator whose resolution succeeds with a single video
but whose materialization always fails. -/
def fetchFailCollab : Collab :=
  { resolve := fun _ => .ok (.single testRaw), fetch := fun _ => .error "boom" }

/-- Fixture: a collaborator whose resolution succeeds with a two-entry
playlist but whose materialization always fails. -/
def playlistFailCollab : Collab :=
  { resolve := fun _ => .ok (.entries [testRaw, testRaw2]), fetch := fun _ => .error "boom" }

/-- Counterexample for C6: a collaborator failure during materialization
(resolution succeeded, `ydl.download` raised) is NOT answered with
HTTP 400 — the `DownloadError` is not a `CannotDownload`, so `do_GET`
does not catch it and the fault escapes the handler unhandled instead of
becoming a response. -/
theorem materialize_failure_unhandled :
    fetchFailCollab.resolve (targetUrl testReq) = .ok (.single testRaw) ∧
    (app fetchFailCollab ["cache"] testReq fsRoot).1 = .error (.downloadError "boom") := by
  exact ⟨rfl, by decide⟩

/-- C6 as amended: a collaborator failure during metadata resolution is
answered with HTTP 400 whose body carries the underlying message (while a
failure during materialization escapes unhandled, per the
counterexample). -/
theorem resolve_failure_400 (c : Collab) (cd : List String) (req : Request)
    (fs : FS) (msg : String) (hm : req.method = "GET")
    (hu : targetUrl req ≠ "?")
    (hr : c.resolve (targetUrl req) = .error msg) :
    app c cd req fs =
      (.ok { status := 400, reason := "Cannot download",
             headers := [("Content-Type", "text/plain")], body := .text msg }, fs) := by
  simp only [app, do_GET, get_videos, extract_info]
  rw [if_pos hm, if_neg hu, hr]
  rfl

/-- Witness for C6: a concrete unresolvable target is answered 400 with the
collaborator message. -/
theorem resolve_failure_400_witness :
    app { resolve := fun _ => .error "no video", fetch := fun _ => .ok [] } ["cache"]
      testReq fsRoot =
      (.ok { status := 400, reason := "Cannot download",
             headers := [("Content-Type", "text/plain")], body := .text "no video" }, fsRoot) :=
  resolve_failure_400 { resolve := fun _ => .error "no video", fetch := fun _ => .ok [] }
    ["cache"] testReq fsRoot "no video" rfl (by decide) rfl

/-- Counterexample for C7: a GET request whose resolution succeeds with a
two-entry playlist is not answered with the playlist rejection when a
materialization fails first — `get_videos` downloads every entry before
`do_GET` checks the length, so the fault escapes unhandled instead. -/
theorem playlist_not_rejected_on_fetch_failure :
    playlistFailCollab.resolve (targetUrl testReq) = .ok (.entries [testRaw, testRaw2]) ∧
    (app playlistFailCollab ["cache"] testReq fsRoot).1 = .error (.downloadError "boom") := by
  exact ⟨rfl, by decide⟩

/-- C7 as amended: when `get_videos` returns successfully with a multi-item
sequence (every entry was materialized or cached first), the handler
responds HTTP 400 with body `playlists not supported yet`. -/
theorem playlist_rejected_400 (c : Collab) (cd : List String) (req : Request)
    (fs fs' : FS) (vs : List VideoInfo) (hm : req.method = "GET")
    (hu : targetUrl req ≠ "?")
    (hg : get_videos c cd (targetUrl req) fs = (.ok vs, fs'))
    (hlen : 2 ≤ vs.length) :
    app c cd req fs =
      (.ok { status := 400, reason := "Bad Request",
             headers := [("Content-Type", "text/plain")],
             body := .text "playlists not supported yet" }, fs') := by
  simp only [app, do_GET]
  rw [if_pos hm, if_neg hu, hg]
  rcases vs with _ | ⟨v1, _ | ⟨v2, rest⟩⟩
  · simp at hlen
  · simp at hlen
  · rfl

/-- Witness for C7 as amended: a concrete two-entry playlist whose
materializations succeed is rejected with the playlist message. -/
theorem playlist_rejected_400_witness :
    app { resolve := fun _ => .ok (.entries [testRaw, testRaw2]), fetch := fun _ => .ok [7] }
      ["cache"] testReq fsRoot =
      (.ok { status := 400, reason := "Bad Request",
             headers := [("Content-Type", "text/plain")],
             body := .text "playlists not supported yet" },
       { dirs := [["cache", "youtube"], ["cache"]],
         files := [(["cache", "youtube", "second.mp3"], [7]),
                   (["cache", "youtube", "C0DPdy98e4c.mp3"], [7])],
         flocks := [], downloads := 2, lockAcqs := 2 }) :=
  playlist_rejected_400
    { resolve := fun _ => .ok (.entries [testRaw, testRaw2]), fetch := fun _ => .ok [7] }
    ["cache"] testReq fsRoot
    { dirs := [["cache", "youtube"], ["cache"]],
      files := [(["cache", "youtube", "second.mp3"], [7]),
                (["cache", "youtube", "C0DPdy98e4c.mp3"], [7])],
      flocks := [], downloads := 2, lockAcqs := 2 }
    [{ url := "https://www.youtube.com/watch?v=C0DPdy98e4c", provider := "youtube",
       id := "C0DPdy98e4c", title := "TEST VIDEO" },
     { url := "https://www.youtube.com/watch?v=second", provider := "youtube",
       id := "second", title := "SECOND" }]
    rfl (by decide) (by decide) (by decide)

/-- C8: a GET request whose `get_videos` call succeeds with exactly one
video is answered 200 with a Content-Disposition attachment carrying the
title, Content-Type audio/mpeg, Content-Length equal to the byte size of
the cached file on disk, and the full file content as body. -/
theorem single_success_200 (c : Collab) (cd : List String) (req : Request)
    (fs fs' : FS) (v : VideoInfo) (hm : req.method = "GET")
    (hu : targetUrl req ≠ "?")
    (hg : get_videos c cd (targetUrl req) fs = (.ok [v], fs')) :
    ∃ bytes, findFile fs'.files (cd ++ v.path) = some bytes ∧
      app c cd req fs =
        (.ok { status := 200, reason := "OK",
               headers :=
                 [("Content-Disposition", "attachment; filename=" ++ quoteParam v.title),
                  ("Content-Type", "audio/mpeg"),
                  ("Content-Length", toString bytes.length)],
               body := .file bytes }, fs') := by
  obtain ⟨hsome, _⟩ := get_videos_ok_present hg v (List.mem_singleton.mpr rfl)
  obtain ⟨bytes, hbytes⟩ := Option.isSome_iff_exists.mp hsome
  refine ⟨bytes, hbytes, ?_⟩
  simp only [app, do_GET]
  rw [if_pos hm, if_neg hu, hg]
  dsimp only
  rw [hbytes]

/-- Witness for C8: the concrete end-to-end request yields 200 with the
three-byte file and Content-Length 3. -/
theorem single_success_200_witness :
    ∃ bytes, findFile fsAfter.files (["cache"] ++ testVideo.path) = some bytes ∧
      app testCollab ["cache"] testReq fsRoot =
        (.ok { status := 200, reason := "OK",
               headers :=
                 [("Content-Disposition",
                   "attachment; filename=" ++ quoteParam testVideo.title),
                  ("Content-Type", "audio/mpeg"),
                  ("Content-Length", toString bytes.length)],
               body := .file bytes }, fsAfter) :=
  single_success_200 testCollab ["cache"] testReq fsRoot fsAfter testVideo
    rfl (by decide) (by decide)

/-- C9: when metadata resolution yields an empty sequence, `do_GET` answers
HTTP 400 with the same `playlists not supported yet` body as the
multi-item case: only exactly one resolved item is accepted. -/
theorem empty_result_400 (c : Collab) (cd : List String) (req : Request)
    (fs : FS) (hm : req.method = "GET") (hu : targetUrl req ≠ "?")
    (hr : c.resolve (targetUrl req) = .ok (.entries [])) :
    app c cd req fs =
      (.ok { status := 400, reason := "Bad Request",
             headers := [("Content-Type", "text/plain")],
             body := .text "playlists not supported yet" }, fs) := by
  simp only [app, do_GET, get_videos, extract_info]
  rw [if_pos hm, if_neg hu, hr]
  rfl

/-- Witness for C9: a concrete empty resolution is answered with the
playlist rejection. -/
theorem empty_result_400_witness :
    app { resolve := fun _ => .ok (.entries []), fetch := fun _ => .ok [] } ["cache"]
      testReq fsRoot =
      (.ok { status := 400, reason := "Bad Request",
             headers := [("Content-Type", "text/plain")],
             body := .text "playlists not supported yet" }, fsRoot) :=
  empty_result_400 { resolve := fun _ => .ok (.entries []), fetch := fun _ => .ok [] }
    ["cache"] testReq fsRoot rfl (by decide) rfl

end Tutube

namespace Tutube

/-- Invariant of the two-thread interleaving: a thread inside the protected
section holds the advisory lock (so the two threads are never both
inside), a thread that has not yet passed the download step has not
downloaded, every thread downloads at most once, and a thread past the
download step or finished sees the target file present. -/
def Inv (c : CConfig) : Prop :=
  (inCrit c.pc0 → c.lockHolder = some false) ∧
  (inCrit c.pc1 → c.lockHolder = some true) ∧
  ((c.pc0 = .start ∨ c.pc0 = .wantLock ∨ c.pc0 = .inCS) → c.dl0 = 0) ∧
  ((c.pc1 = .start ∨ c.pc1 = .wantLock ∨ c.pc1 = .inCS) → c.dl1 = 0) ∧
  c.dl0 ≤ 1 ∧ c.dl1 ≤ 1 ∧
  ((c.pc0 = .releasing ∨ c.pc0 = .done) → c.fileExists = true) ∧
  ((c.pc1 = .releasing ∨ c.pc1 = .done) → c.fileExists = true)

theorem inv_step0 {c : CConfig} (h : Inv c) : Inv (step0 c) := by
  obtain ⟨h1, h2, h3, h4, h5, h6, h7, h8⟩ := h
  unfold Inv inCrit at *
  unfold step0
  split
  · split
    · refine ⟨?_, ?_, ?_, ?_, ?_, ?_, ?_, ?_⟩ <;> simp_all
    · refine ⟨?_, ?_, ?_, ?_, ?_, ?_, ?_, ?_⟩ <;> simp_all
  · split
    · refine ⟨?_, ?_, ?_, ?_, ?_, ?_, ?_, ?_⟩ <;> simp_all
    · refine ⟨?_, ?_, ?_, ?_, ?_, ?_, ?_, ?_⟩ <;> simp_all
  · refine ⟨?_, ?_, ?_, ?_, ?_, ?_, ?_, ?_⟩ <;> simp_all
  · refine ⟨?_, ?_, ?_, ?_, ?_, ?_, ?_, ?_⟩ <;> simp_all
  · refine ⟨?_, ?_, ?_, ?_, ?_, ?_, ?_, ?_⟩ <;> simp_all

theorem inv_step1 {c : CConfig} (h : Inv c) : Inv (step1 c) := by
  obtain ⟨h1, h2, h3, h4, h5, h6, h7, h8⟩ := h
  unfold Inv inCrit at *
  unfold step1
  split
  · split
    · refine ⟨?_, ?_, ?_, ?_, ?_, ?_, ?_, ?_⟩ <;> simp_all
    · refine ⟨?_, ?_, ?_, ?_, ?_, ?_, ?_, ?_⟩ <;> simp_all
  · split
    · refine ⟨?_, ?_, ?_, ?_, ?_, ?_, ?_, ?_⟩ <;> simp_all
    · refine ⟨?_, ?_, ?_, ?_, ?_, ?_, ?_, ?_⟩ <;> simp_all
  · refine ⟨?_, ?_, ?_, ?_, ?_, ?_, ?_, ?_⟩ <;> simp_all
  · refine ⟨?_, ?_, ?_, ?_, ?_, ?_, ?_, ?_⟩ <;> simp_all
  · refine ⟨?_, ?_, ?_, ?_, ?_, ?_, ?_, ?_⟩ <;> simp_all

theorem inv_stepThread {c : CConfig} (t : Bool) (h : Inv c) : Inv (stepThread c t) := by
  cases t
  · exact inv_step0 h
  · exact inv_step1 h

theorem inv_initConfig : Inv initConfig := by
  refine ⟨?_, ?_, ?_, ?_, ?_, ?_, ?_, ?_⟩ <;> simp [initConfig, inCrit]

theorem inv_runSched (sched : List Bool) : ∀ c, Inv c → Inv (runSched sched c) := by
  induction sched with
  | nil => intro c h; exact h
  | cons t rest ih =>
    intro c h
    unfold runSched at ih ⊢
    rw [List.foldl_cons]
    exact ih _ (inv_stepThread t h)

end Tutube

namespace Tutube

/-- Counterexample for C1: an interleaving of two concurrent `get_videos`
callers for the same resource in which both pass the existence check
while the file is still absent.  The first caller takes the lock,
downloads and releases; the second, which was blocked on the lock, then
acquires it and invokes the materialize operation AGAIN, because
`_download` does not re-check existence after acquiring the lock.  Both
threads finish and the collaborator materialize operation has been
invoked twice, not exactly once. -/
theorem concurrent_download_twice :
    (runSched [false, true, false, false, false, true, true, true] initConfig).pc0 = Pc.done ∧
    (runSched [false, true, false, false, false, true, true, true] initConfig).pc1 = Pc.done ∧
    (runSched [false, true, false, false, false, true, true, true] initConfig).dl0 +
      (runSched [false, true, false, false, false, true, true, true] initConfig).dl1 = 2 := by
  decide

/-- C1 as amended: in every interleaving of two concurrent callers for the
same resource, the lock serializes the materializations (the two threads
are never simultaneously inside the protected download section), each
caller invokes the materialize operation at most once — so at most twice
in total, not exactly once — and every caller that finishes sees the
completed file. -/
theorem concurrent_download_serialized (sched : List Bool) :
    ¬(inCrit (runSched sched initConfig).pc0 ∧ inCrit (runSched sched initConfig).pc1) ∧
    (runSched sched initConfig).dl0 ≤ 1 ∧ (runSched sched initConfig).dl1 ≤ 1 ∧
    ((runSched sched initConfig).pc0 = Pc.done →
      (runSched sched initConfig).fileExists = true) ∧
    ((runSched sched initConfig).pc1 = Pc.done →
      (runSched sched initConfig).fileExists = true) := by
  obtain ⟨h1, h2, h3, h4, h5, h6, h7, h8⟩ := inv_runSched sched initConfig inv_initConfig
  refine ⟨?_, h5, h6, fun hd => h7 (Or.inr hd), fun hd => h8 (Or.inr hd)⟩
  rintro ⟨ha, hb⟩
  have hf := h1 ha
  have ht := h2 hb
  rw [hf] at ht
  exact Bool.noConfusion (Option.some.inj ht)

/-- Witness for C1 as amended: the property evaluated on a concrete
schedule. -/
theorem concurrent_download_serialized_witness :
    (runSched [false, false, false, true] initConfig).dl0 ≤ 1 :=
  (concurrent_download_serialized [false, false, false, true]).2.1

end Tutube
